import Mathlib

/-!
Shallow embedding of the Chat Request Gateway of `c1-ds-graphql-workers`
(`src/resolvers.ts` and `src/deepseek.ts`).

The gateway is stateless: each call validates the input, clamps the numeric
parameters, assembles the outbound message list, performs a single upstream
HTTP call, maps the response, and translates failures into user-facing
messages.  The single network effect is modelled by passing an explicit
`transport` function and by returning, next to the outcome, the list of
upstream requests that were issued during the call (so "zero network calls"
is `trace = []`).

JS `number` values feeding `Math.min`/`Math.max` are modelled as `ℚ` for the
temperature (only order structure is used) and `ℤ` for `maxTokens`
(a GraphQL `Int`).  JS string falsiness (`!s`) for an optional string is
modelled on `Option String` (`none` = absent, `some ""` = empty), and
`String.trim` models JS `trim`.
-/

/-- JS `s.includes(pat)`: substring containment, as used by the error
translator in `resolvers.ts` (`error.message.includes('401')`, …). -/
def strIncludes (s pat : String) : Bool :=
  decide (pat.data <:+: s.data)

/-- JS `s.trim()`: strip leading and trailing whitespace.  Modelled
structurally over the character list so that it evaluates on literals. -/
def jsTrim (s : String) : String :=
  ⟨((s.data.dropWhile Char.isWhitespace).reverse.dropWhile
      Char.isWhitespace).reverse⟩

/-- JS `Math.max` on two numbers (order part; no NaN in this model). -/
def mathMax (a b : ℚ) : ℚ := if a ≤ b then b else a

/-- JS `Math.min` on two numbers (order part; no NaN in this model). -/
def mathMin (a b : ℚ) : ℚ := if a ≤ b then a else b

/-- JS `Math.max` on two integers (the `maxTokens` path). -/
def mathMaxInt (a b : ℤ) : ℤ := if a ≤ b then b else a

/-- JS `Math.min` on two integers (the `maxTokens` path). -/
def mathMinInt (a b : ℤ) : ℤ := if a ≤ b then a else b

/-- `role` of a chat message (`deepseek.ts`, `DeepSeekMessage.role`). -/
inductive Role where
  | system
  | user
  | assistant
deriving DecidableEq, Repr

/-- `DeepSeekMessage` from `deepseek.ts`. -/
structure DeepSeekMessage where
  role : Role
  content : String
deriving DecidableEq, Repr

/-- `DeepSeekRequest` from `deepseek.ts` (the serialized outbound body). -/
structure DeepSeekRequest where
  model : String
  messages : List DeepSeekMessage
  temperature : Option ℚ
  max_tokens : Option ℤ
  stream : Option Bool
deriving DecidableEq, Repr

/-- The `usage` object of an upstream response. -/
structure DeepSeekUsage where
  prompt_tokens : ℤ
  completion_tokens : ℤ
  total_tokens : ℤ
deriving DecidableEq, Repr

/-- The `message` object of an upstream choice.  `content` is `Option`
because the resolver defends against its absence (`content || ''`). -/
structure DeepSeekChoiceMessage where
  role : String
  content : Option String
deriving DecidableEq, Repr

/-- One entry of `choices`.  `message` is `Option` because the resolver
checks `!choice.message`. -/
structure DeepSeekChoice where
  index : ℤ
  message : Option DeepSeekChoiceMessage
  finish_reason : String
deriving DecidableEq, Repr

/-- `DeepSeekResponse` from `deepseek.ts`.  `usage` is `Option` because the
resolver defends against its absence (`response.usage ? … : zeros`). -/
structure DeepSeekResponseData where
  id : String
  object : String
  created : ℤ
  model : String
  choices : List DeepSeekChoice
  usage : Option DeepSeekUsage
deriving DecidableEq, Repr

/-- Outcome of the single `fetch` in `DeepSeekAPI.chat`: either a parsed
2xx response, or a non-ok HTTP status together with the body text. -/
inductive UpstreamResult where
  | success (resp : DeepSeekResponseData)
  | httpError (status : Nat) (body : String)
deriving DecidableEq, Repr

/-- The error message built by `DeepSeekAPI.chat` on a non-ok status:
`` `DeepSeek API Error: ${response.status} - ${errorText}` ``. -/
def upstreamErrorMessage (status : Nat) (body : String) : String :=
  "DeepSeek API Error: " ++ toString status ++ " - " ++ body

/-- `DeepSeekAPI.chat` (`deepseek.ts` lines 43-59): one POST, throw on
non-ok status with the status and body text in the message.  The network
is the explicit `transport`. -/
def DeepSeekAPI.chat (transport : DeepSeekRequest → UpstreamResult)
    (request : DeepSeekRequest) : Except String DeepSeekResponseData :=
  match transport request with
  | .success r => .ok r
  | .httpError s b => .error (upstreamErrorMessage s b)

/-- Outcome of the streaming `fetch` in `DeepSeekAPI.streamChat`: a raw
response body (opaque, type `β`) or a non-ok status with body text. -/
inductive StreamResult (β : Type) where
  | success (body : β)
  | httpError (status : Nat) (bodyText : String)

/-- `DeepSeekAPI.streamChat` (`deepseek.ts` lines 61-77): serializes
`{ ...request, stream: true }`, throws on non-ok status, and on success
returns `response.body` raw.  The second component is the request whose
serialization was sent. -/
def DeepSeekAPI.streamChat {β : Type}
    (transport : DeepSeekRequest → StreamResult β)
    (request : DeepSeekRequest) : Except String β × DeepSeekRequest :=
  let sent : DeepSeekRequest := { request with stream := some true }
  (match transport sent with
   | .success b => .ok b
   | .httpError s t => .error (upstreamErrorMessage s t), sent)

/-- `DeepSeekAPI.getModels` (static list, `schema.ts` appendix lines
199-202). -/
def DeepSeekAPI.getModels : List String :=
  ["deepseek-chat", "deepseek-coder"]

/-- `ChatInput` from `resolvers.ts` (every optional field `none` when the
caller omitted it; `message` is `Option` because the resolver guards
`!message` against its absence). -/
structure ChatInput where
  message : Option String
  model : Option String
  temperature : Option ℚ
  maxTokens : Option ℤ
  conversationId : Option String
  systemPrompt : Option String
deriving DecidableEq, Repr

/-- The Workers environment of `Context` in `resolvers.ts`. -/
structure Env where
  DEEPSEEK_API_KEY : Option String
  DEEPSEEK_API_URL : Option String
deriving DecidableEq, Repr

/-- JS falsiness of `context.env.DEEPSEEK_API_KEY`: absent or empty. -/
def apiKeyFalsy (env : Env) : Bool :=
  match env.DEEPSEEK_API_KEY with
  | none => true
  | some s => s == ""

/-- The `usage` object of the result returned to the caller. -/
structure UsageResult where
  promptTokens : ℤ
  completionTokens : ℤ
  totalTokens : ℤ
deriving DecidableEq, Repr

/-- The object built at `resolvers.ts` lines 126-142 and returned to the
caller.  `timestamp` is the ISO string produced at mapping time; it is an
input (`now`) of the embedding. -/
structure ChatResult where
  id : String
  message : String
  model : String
  usage : UsageResult
  conversationId : String
  timestamp : String
  finishReason : String
deriving DecidableEq, Repr

/-- What the resolver delivers to the GraphQL layer: a result, or a thrown
`Error` (its message, after translation by the `catch` block). -/
inductive ChatOutcome where
  | ok (r : ChatResult)
  | error (msg : String)
deriving DecidableEq, Repr

/-- `'DeepSeek API 密钥未配置，请在环境变量中设置 DEEPSEEK_API_KEY'`
(`resolvers.ts` line 78). -/
def configErrorMessage : String :=
  "DeepSeek API 密钥未配置，请在环境变量中设置 DEEPSEEK_API_KEY"

/-- `'消息内容不能为空'` (`resolvers.ts` line 83). -/
def validationErrorMessage : String := "消息内容不能为空"

/-- `'DeepSeek API 返回了无效的响应'` (`resolvers.ts` line 122). -/
def invalidResponseMessage : String := "DeepSeek API 返回了无效的响应"

/-- `'DeepSeek API 密钥无效，请检查配置'` (`resolvers.ts` line 159),
the credential-class user-facing error. -/
def invalidKeyMessage : String := "DeepSeek API 密钥无效，请检查配置"

/-- `'请求频率过高，请稍后重试'` (`resolvers.ts` line 161). -/
def rateLimitMessage : String := "请求频率过高，请稍后重试"

/-- `'DeepSeek 服务暂时不可用，请稍后重试'` (`resolvers.ts` line 163),
the upstream-temporarily-unavailable-class error. -/
def unavailableMessage : String := "DeepSeek 服务暂时不可用，请稍后重试"

/-- The prefix of the generic wrap `` `聊天请求失败: ${error.message}` ``
(`resolvers.ts` line 165). -/
def genericFailurePrefix : String := "聊天请求失败: "

/-- The `catch` block of `Mutation.chat` (`resolvers.ts` lines 157-165):
substring-match the caught message against `'401'`, `'429'`, `'500'`,
otherwise wrap it generically. -/
def translateErrorMessage (msg : String) : String :=
  if strIncludes msg "401" then invalidKeyMessage
  else if strIncludes msg "429" then rateLimitMessage
  else if strIncludes msg "500" then unavailableMessage
  else genericFailurePrefix ++ msg

/-- Message-list assembly (`resolvers.ts` lines 93-107): optional trimmed
system message first (only when `systemPrompt` is truthy and non-blank
after trimming), then the trimmed user message. -/
def buildMessages (systemPrompt : Option String) (message : String) :
    List DeepSeekMessage :=
  (match systemPrompt with
   | some sp =>
     if sp ≠ "" ∧ jsTrim sp ≠ "" then [⟨Role.system, jsTrim sp⟩] else []
   | none => []) ++ [⟨Role.user, jsTrim message⟩]

/-- The upstream request assembled at `resolvers.ts` lines 112-117, with
the defaults of the destructuring at lines 67-74 and the
`Math.max`/`Math.min` clamps. -/
def buildRequest (input : ChatInput) : DeepSeekRequest :=
  let message := input.message.getD ""
  let model := input.model.getD "deepseek-chat"
  let temperature := input.temperature.getD (7 / 10 : ℚ)
  let maxTokens := input.maxTokens.getD 2000
  { model := model
    messages := buildMessages input.systemPrompt message
    temperature := some (mathMax 0 (mathMin 1 temperature))
    max_tokens := some (mathMaxInt 1 (mathMinInt 4000 maxTokens))
    stream := none }

/-- Response mapping (`resolvers.ts` lines 120-142): first choice must
exist and carry a `message`; absent `usage` becomes the zero triple;
`conversationId || response.id`; `content || ''`. -/
def mapResponse (input : ChatInput) (now : String)
    (resp : DeepSeekResponseData) : Except String ChatResult :=
  match resp.choices.head? with
  | none => .error invalidResponseMessage
  | some choice =>
    match choice.message with
    | none => .error invalidResponseMessage
    | some cm =>
      .ok { id := resp.id
            message := cm.content.getD ""
            model := resp.model
            usage :=
              match resp.usage with
              | some u => ⟨u.prompt_tokens, u.completion_tokens, u.total_tokens⟩
              | none => ⟨0, 0, 0⟩
            conversationId :=
              match input.conversationId with
              | some cid => if cid = "" then resp.id else cid
              | none => resp.id
            timestamp := now
            finishReason := choice.finish_reason }

/-- The `try` block of `Mutation.chat` (`resolvers.ts` lines 65-146):
key check, message validation, request assembly, the single upstream call,
response mapping.  The second component is the list of issued upstream
requests. -/
def chatTry (input : ChatInput) (env : Env)
    (transport : DeepSeekRequest → UpstreamResult) (now : String) :
    Except String ChatResult × List DeepSeekRequest :=
  if apiKeyFalsy env then (.error configErrorMessage, [])
  else
    match input.message with
    | none => (.error validationErrorMessage, [])
    | some m =>
      if m = "" ∨ jsTrim m = "" then (.error validationErrorMessage, [])
      else
        let req := buildRequest input
        match DeepSeekAPI.chat transport req with
        | .error e => (.error e, [req])
        | .ok resp => (mapResponse input now resp, [req])

/-- `Mutation.chat` (`resolvers.ts` lines 64-170): the `try` block, with
every thrown error routed through the `catch` translator. -/
def Mutation.chat (input : ChatInput) (env : Env)
    (transport : DeepSeekRequest → UpstreamResult) (now : String) :
    ChatOutcome × List DeepSeekRequest :=
  match chatTry input env transport now with
  | (.ok r, t) => (.ok r, t)
  | (.error m, t) => (.error (translateErrorMessage m), t)

/-- The static fallback list of `Query.models` (`resolvers.ts` line 51). -/
def defaultModels : List String := ["deepseek-chat", "deepseek-coder"]

/-- `Query.models` (`resolvers.ts` lines 36-53): missing key throws inside
the `try`, and any failure of the awaited model-listing step is caught and
degrades to the static default list.  `listingStep` is the awaited result
of `deepseekApi.getModels()`; in the source it is always
`.ok DeepSeekAPI.getModels`. -/
def Query.models (env : Env) (listingStep : Except String (List String)) :
    List String :=
  if apiKeyFalsy env then defaultModels
  else
    match listingStep with
    | .ok l => l
    | .error _ => defaultModels

/-- Saturating clamp in the words of the spec (§3, glossary): a value
outside `[lo, hi]` is pulled to the nearest bound, an in-range value is
kept.  Stated from the spec, to be compared with the code's
`Math.max`/`Math.min` composition. -/
def specClamp (lo hi x : ℚ) : ℚ :=
  if x < lo then lo else if hi < x then hi else x

/-- Saturating clamp on integers, in the words of the spec (§3). -/
def specClampInt (lo hi x : ℤ) : ℤ :=
  if x < lo then lo else if hi < x then hi else x

/-! ## Helper lemmas -/

/-- A pattern sitting between surrounding pieces is found by `strIncludes`. -/
theorem strIncludes_of_split (a p c d : String) :
    strIncludes (a ++ p ++ c ++ d) p = true := by
  unfold strIncludes
  rw [decide_eq_true_eq]
  exact ⟨a.data, c.data ++ d.data, by simp⟩

/-- The upstream error message always contains the decimal status code. -/
theorem strIncludes_upstream_status (status : Nat) (body : String) :
    strIncludes (upstreamErrorMessage status body) (toString status) = true :=
  strIncludes_of_split "DeepSeek API Error: " (toString status) " - " body

/-- The translator sends the validation message to the generic wrap. -/
theorem translate_validation :
    translateErrorMessage validationErrorMessage
      = genericFailurePrefix ++ validationErrorMessage := by decide

/-- The translator sends the configuration message to the generic wrap. -/
theorem translate_config :
    translateErrorMessage configErrorMessage
      = genericFailurePrefix ++ configErrorMessage := by decide

/-- The trace of issued upstream requests is unchanged by the `catch`
translator. -/
theorem chat_trace_eq (input : ChatInput) (env : Env)
    (transport : DeepSeekRequest → UpstreamResult) (now : String) :
    (Mutation.chat input env transport now).2
      = (chatTry input env transport now).2 := by
  unfold Mutation.chat
  rcases chatTry input env transport now with ⟨r | m, t⟩ <;> rfl

/-- With the key configured and the message valid, the `try` block issues
exactly the assembled request and the outcome is decided by the transport. -/
theorem chatTry_valid (input : ChatInput) (env : Env)
    (transport : DeepSeekRequest → UpstreamResult) (now : String)
    (m : String) (hkey : apiKeyFalsy env = false)
    (hm : input.message = some m) (hv : ¬(m = "" ∨ jsTrim m = "")) :
    chatTry input env transport now =
      ((match transport (buildRequest input) with
        | .success r => mapResponse input now r
        | .httpError s b => .error (upstreamErrorMessage s b)),
       [buildRequest input]) := by
  unfold chatTry DeepSeekAPI.chat
  simp only [hkey, hm, Bool.false_eq_true, if_false, if_neg hv]
  cases transport (buildRequest input) <;> rfl

/-- With the key configured and a blank (absent, empty or whitespace-only)
message, `Mutation.chat` throws the translated validation error having
issued no upstream request. -/
theorem chat_blankMessage (input : ChatInput) (env : Env)
    (transport : DeepSeekRequest → UpstreamResult) (now : String)
    (hkey : apiKeyFalsy env = false)
    (hblank : jsTrim (input.message.getD "") = "") :
    Mutation.chat input env transport now
      = (.error (genericFailurePrefix ++ validationErrorMessage), []) := by
  unfold Mutation.chat chatTry
  cases hm : input.message with
  | none =>
    simp only [hkey, Bool.false_eq_true, if_false, translate_validation]
  | some m =>
    rw [hm] at hblank
    simp only [Option.getD_some] at hblank
    simp only [hkey, Bool.false_eq_true, if_false, if_pos (Or.inr hblank),
      translate_validation]

/-- The code's clamp of the temperature agrees with the spec's saturating
clamp into `[0, 1]`. -/
theorem mathMaxMin_eq_specClamp (x : ℚ) :
    mathMax 0 (mathMin 1 x) = specClamp 0 1 x := by
  unfold mathMax mathMin specClamp
  split_ifs <;> first | rfl | linarith

/-- The code's clamp of `maxTokens` agrees with the spec's saturating
clamp into `[1, 4000]`. -/
theorem mathMaxMinInt_eq_specClampInt (x : ℤ) :
    mathMaxInt 1 (mathMinInt 4000 x) = specClampInt 1 4000 x := by
  unfold mathMaxInt mathMinInt specClampInt
  split_ifs <;> first | rfl | omega

/-! ## Claim theorems -/

/-- C1: for every `ChatInput` whose `message` is absent, empty, or
whitespace-only, with the credential configured, `Mutation.chat` fails
with the validation error (as delivered by the translator) and issues
zero upstream requests. -/
theorem chat_blank_message_fails_validation_without_network
    (input : ChatInput) (env : Env)
    (transport : DeepSeekRequest → UpstreamResult) (now : String)
    (hkey : apiKeyFalsy env = false)
    (hblank : jsTrim (input.message.getD "") = "") :
    Mutation.chat input env transport now
      = (.error (translateErrorMessage validationErrorMessage), []) := by
  rw [translate_validation]
  exact chat_blankMessage input env transport now hkey hblank

/-- Witness for C1: the whitespace-only message `"   "` with a configured
key fails with the validation error and an empty request trace. -/
theorem chat_blank_message_fails_validation_without_network_witness :
    apiKeyFalsy ⟨some "sk-test", none⟩ = false
    ∧ jsTrim ((⟨some "   ", none, none, none, none, none⟩ :
        ChatInput).message.getD "") = ""
    ∧ Mutation.chat ⟨some "   ", none, none, none, none, none⟩
        ⟨some "sk-test", none⟩ (fun _ => .httpError 500 "boom") "2024-01-01"
        = (.error (translateErrorMessage validationErrorMessage), []) :=
  ⟨by decide, by decide,
   chat_blank_message_fails_validation_without_network _ _ _ _
     (by decide) (by decide)⟩

/-- C6 (amended): the validation error is not passed through unchanged;
the delivered message is the validation message wrapped by the generic
`聊天请求失败: ` prefix of the translator's final branch. -/
theorem chat_validation_error_delivered_with_generic_prefix
    (input : ChatInput) (env : Env)
    (transport : DeepSeekRequest → UpstreamResult) (now : String)
    (hkey : apiKeyFalsy env = false)
    (hblank : jsTrim (input.message.getD "") = "") :
    (Mutation.chat input env transport now).1
      = .error (genericFailurePrefix ++ validationErrorMessage) := by
  rw [chat_blankMessage input env transport now hkey hblank]

/-- Witness for the amended C6: an absent message yields exactly the
prefixed validation message. -/
theorem chat_validation_error_delivered_with_generic_prefix_witness :
    apiKeyFalsy ⟨some "sk-test", none⟩ = false
    ∧ jsTrim ((⟨none, none, none, none, none, none⟩ :
        ChatInput).message.getD "") = ""
    ∧ (Mutation.chat ⟨none, none, none, none, none, none⟩
        ⟨some "sk-test", none⟩ (fun _ => .httpError 500 "x") "t").1
        = .error (genericFailurePrefix ++ validationErrorMessage) :=
  ⟨by decide, by decide,
   chat_validation_error_delivered_with_generic_prefix _ _ _ _
     (by decide) (by decide)⟩

/-- Counterexample to C6 as stated: for the whitespace message `" "` the
delivered message carries the `聊天请求失败: ` prefix, so it is not the
validation error's message passed through unchanged. -/
theorem chat_validation_error_not_passed_through_counterexample :
    (Mutation.chat ⟨some " ", none, none, none, none, none⟩
        ⟨some "sk-live", none⟩ (fun _ => .httpError 500 "x") "t").1
      = .error (genericFailurePrefix ++ validationErrorMessage)
    ∧ genericFailurePrefix ++ validationErrorMessage
        ≠ validationErrorMessage := by
  decide

/-- C10: the missing-credential check precedes message validation: with
the key absent (or empty), every input — even a blank-message one — fails
with the configuration error, which differs from the validation error,
and no upstream request is issued. -/
theorem chat_missing_key_config_error_before_validation
    (input : ChatInput) (env : Env)
    (transport : DeepSeekRequest → UpstreamResult) (now : String)
    (hkey : apiKeyFalsy env = true) :
    Mutation.chat input env transport now
      = (.error (translateErrorMessage configErrorMessage), [])
    ∧ translateErrorMessage configErrorMessage
        ≠ translateErrorMessage validationErrorMessage := by
  constructor
  · unfold Mutation.chat chatTry
    simp [hkey]
  · decide

/-- Witness for C10: a blank message together with an absent key yields
the configuration error, not the validation error, and no network call. -/
theorem chat_missing_key_config_error_before_validation_witness :
    apiKeyFalsy ⟨none, none⟩ = true
    ∧ (Mutation.chat ⟨some "", none, none, none, none, none⟩ ⟨none, none⟩
        (fun _ => .httpError 500 "x") "t"
        = (.error (translateErrorMessage configErrorMessage), [])
      ∧ translateErrorMessage configErrorMessage
          ≠ translateErrorMessage validationErrorMessage) :=
  ⟨by decide,
   chat_missing_key_config_error_before_validation _ _ _ _ (by decide)⟩

/-- C2: for every valid `ChatInput` (key configured, message non-blank),
`Mutation.chat` issues exactly the assembled request, whose temperature is
the input temperature saturating-clamped into `[0, 1]` and whose
`max_tokens` is the input `maxTokens` saturating-clamped into `[1, 4000]`
(defaults `0.7` and `2000` when omitted); out-of-range values are pulled
to the nearest bound, never rejected. -/
theorem chat_clamps_temperature_and_maxTokens
    (input : ChatInput) (env : Env)
    (transport : DeepSeekRequest → UpstreamResult) (now m : String)
    (hkey : apiKeyFalsy env = false) (hm : input.message = some m)
    (hv : ¬(m = "" ∨ jsTrim m = "")) :
    (Mutation.chat input env transport now).2 = [buildRequest input]
    ∧ (buildRequest input).temperature
        = some (specClamp 0 1 (input.temperature.getD (7 / 10)))
    ∧ (buildRequest input).max_tokens
        = some (specClampInt 1 4000 (input.maxTokens.getD 2000)) := by
  refine ⟨?_, ?_, ?_⟩
  · rw [chat_trace_eq, chatTry_valid input env transport now m hkey hm hv]
  · simp only [buildRequest, mathMaxMin_eq_specClamp]
  · simp only [buildRequest, mathMaxMinInt_eq_specClampInt]

/-- Witness for C2: temperature `2` is clamped to `1` and `maxTokens`
`50000` to `4000` on the concrete request actually issued. -/
theorem chat_clamps_temperature_and_maxTokens_witness :
    apiKeyFalsy ⟨some "sk-test", none⟩ = false
    ∧ ¬(("hi" : String) = "" ∨ jsTrim "hi" = "")
    ∧ ((Mutation.chat ⟨some "hi", none, some 2, some 50000, none, none⟩
          ⟨some "sk-test", none⟩ (fun _ => .httpError 503 "x") "t").2
        = [buildRequest ⟨some "hi", none, some 2, some 50000, none, none⟩]
      ∧ (buildRequest ⟨some "hi", none, some 2, some 50000, none, none⟩).temperature
          = some (specClamp 0 1
              ((⟨some "hi", none, some 2, some 50000, none, none⟩ :
                ChatInput).temperature.getD (7 / 10)))
      ∧ (buildRequest ⟨some "hi", none, some 2, some 50000, none, none⟩).max_tokens
          = some (specClampInt 1 4000
              ((⟨some "hi", none, some 2, some 50000, none, none⟩ :
                ChatInput).maxTokens.getD 2000))) :=
  ⟨by decide, by decide,
   chat_clamps_temperature_and_maxTokens _ _ _ _ "hi"
     (by decide) rfl (by decide)⟩

/-- C3: for every valid `ChatInput`, the assembled message sequence is the
optional system message (trimmed `systemPrompt`, only when present and
non-blank after trimming) followed by exactly one user message carrying
the trimmed `message`. -/
theorem chat_assembles_messages
    (input : ChatInput) (env : Env)
    (transport : DeepSeekRequest → UpstreamResult) (now m : String)
    (hkey : apiKeyFalsy env = false) (hm : input.message = some m)
    (hv : ¬(m = "" ∨ jsTrim m = "")) :
    (Mutation.chat input env transport now).2 = [buildRequest input]
    ∧ (∀ sp, input.systemPrompt = some sp → jsTrim sp ≠ "" →
        (buildRequest input).messages
          = [⟨Role.system, jsTrim sp⟩, ⟨Role.user, jsTrim m⟩])
    ∧ (∀ sp, input.systemPrompt = some sp → jsTrim sp = "" →
        (buildRequest input).messages = [⟨Role.user, jsTrim m⟩])
    ∧ (input.systemPrompt = none →
        (buildRequest input).messages = [⟨Role.user, jsTrim m⟩]) := by
  refine ⟨?_, ?_, ?_, ?_⟩
  · rw [chat_trace_eq, chatTry_valid input env transport now m hkey hm hv]
  · intro sp hsp hne
    have hsp' : sp ≠ "" := by
      intro h
      exact hne (by rw [h]; rfl)
    simp only [buildRequest, buildMessages, hsp, hm, Option.getD_some,
      if_pos (And.intro hsp' hne)]
    rfl
  · intro sp hsp hb
    have : ¬(sp ≠ "" ∧ jsTrim sp ≠ "") := fun h => h.2 hb
    simp only [buildRequest, buildMessages, hsp, hm, Option.getD_some,
      if_neg this]
    rfl
  · intro hsp
    simp only [buildRequest, buildMessages, hsp, hm, Option.getD_some]
    rfl

/-- Witness for C3: `systemPrompt = "be terse"` and `message = "hi"` give
exactly the two-element sequence of the spec's example. -/
theorem chat_assembles_messages_witness :
    apiKeyFalsy ⟨some "sk-test", none⟩ = false
    ∧ ¬(("hi" : String) = "" ∨ jsTrim "hi" = "")
    ∧ jsTrim "be terse" ≠ ""
    ∧ (buildRequest ⟨some "hi", none, none, none, none, some "be terse"⟩).messages
        = [⟨Role.system, jsTrim "be terse"⟩, ⟨Role.user, jsTrim "hi"⟩]
    ∧ (buildRequest ⟨some "hi", none, none, none, none, some "be terse"⟩).messages
        = [⟨Role.system, "be terse"⟩, ⟨Role.user, "hi"⟩] :=
  ⟨by decide, by decide, by decide,
   (chat_assembles_messages ⟨some "hi", none, none, none, none, some "be terse"⟩
      ⟨some "sk-test", none⟩ (fun _ => .httpError 503 "x") "t" "hi"
      (by decide) rfl (by decide)).2.1 "be terse" rfl (by decide),
   by decide⟩

/-- The upstream message for a 401 status is translated to the fixed
credential-class message. -/
theorem translate_upstream401 (body : String) :
    translateErrorMessage (upstreamErrorMessage 401 body)
      = invalidKeyMessage := by
  have h : strIncludes (upstreamErrorMessage 401 body) "401" = true := by
    have h0 := strIncludes_upstream_status 401 body
    rwa [show toString (401 : Nat) = "401" from rfl] at h0
  simp only [translateErrorMessage, h, if_true]

/-- C4 (amended): every upstream 401 response, whatever the body text and
whatever the configured credential, makes `Mutation.chat` fail with the
fixed credential-class message — a constant independent of the credential
and of the body — and that message contains no credential that is not a
substring of this fixed constant. -/
theorem chat_upstream401_fixed_credential_error
    (input : ChatInput) (env : Env)
    (transport : DeepSeekRequest → UpstreamResult) (now m key body : String)
    (hkey2 : env.DEEPSEEK_API_KEY = some key) (hkne : key ≠ "")
    (hm : input.message = some m) (hv : ¬(m = "" ∨ jsTrim m = ""))
    (htr : transport (buildRequest input) = .httpError 401 body) :
    (Mutation.chat input env transport now).1 = .error invalidKeyMessage
    ∧ ∀ cred : String, strIncludes invalidKeyMessage cred = false →
        ∃ msg, (Mutation.chat input env transport now).1 = .error msg
          ∧ strIncludes msg cred = false := by
  have hkey : apiKeyFalsy env = false := by
    simp [apiKeyFalsy, hkey2, hkne]
  have h1 : (Mutation.chat input env transport now).1
      = .error invalidKeyMessage := by
    unfold Mutation.chat
    rw [chatTry_valid input env transport now m hkey hm hv, htr]
    simp only [translate_upstream401]
  exact ⟨h1, fun cred hc => ⟨invalidKeyMessage, h1, hc⟩⟩

/-- Witness for the amended C4: key `"sk-live-123"`, 401 with body
`"Unauthorized"`: the fixed credential message is delivered. -/
theorem chat_upstream401_fixed_credential_error_witness :
    (⟨some "sk-live-123", none⟩ : Env).DEEPSEEK_API_KEY = some "sk-live-123"
    ∧ ("sk-live-123" : String) ≠ ""
    ∧ ¬(("hi" : String) = "" ∨ jsTrim "hi" = "")
    ∧ ((Mutation.chat ⟨some "hi", none, none, none, none, none⟩
          ⟨some "sk-live-123", none⟩ (fun _ => .httpError 401 "Unauthorized")
          "t").1 = .error invalidKeyMessage
      ∧ ∀ cred : String, strIncludes invalidKeyMessage cred = false →
          ∃ msg, (Mutation.chat ⟨some "hi", none, none, none, none, none⟩
              ⟨some "sk-live-123", none⟩
              (fun _ => .httpError 401 "Unauthorized") "t").1 = .error msg
            ∧ strIncludes msg cred = false) :=
  ⟨rfl, by decide, by decide,
   chat_upstream401_fixed_credential_error _ _ _ _ "hi" "sk-live-123"
     "Unauthorized" rfl (by decide) rfl (by decide) rfl⟩

/-- Counterexample to C4 as stated: with the (degenerate) credential
`"API"`, the thrown credential-class message does contain the credential
string, because the fixed text itself contains `"API"`. -/
theorem chat_upstream401_contains_credential_counterexample :
    (Mutation.chat ⟨some "hi", none, none, none, none, none⟩
        ⟨some "API", none⟩ (fun _ => .httpError 401 "x") "t").1
      = .error invalidKeyMessage
    ∧ strIncludes invalidKeyMessage "API" = true := by
  decide

/-- C5 (amended): an upstream failure whose error message contains the
substring `"500"` (and neither `"401"` nor `"429"`) — in particular an
HTTP 500 with a digit-free body — is translated to the
upstream-temporarily-unavailable class.  Statuses 502 and 503 do not
match this substring test and fall to the generic wrap instead. -/
theorem chat_status500_unavailable
    (input : ChatInput) (env : Env)
    (transport : DeepSeekRequest → UpstreamResult) (now m body : String)
    (hkey : apiKeyFalsy env = false) (hm : input.message = some m)
    (hv : ¬(m = "" ∨ jsTrim m = ""))
    (htr : transport (buildRequest input) = .httpError 500 body)
    (h401 : strIncludes (upstreamErrorMessage 500 body) "401" = false)
    (h429 : strIncludes (upstreamErrorMessage 500 body) "429" = false) :
    (Mutation.chat input env transport now).1
      = .error unavailableMessage := by
  have h500 : strIncludes (upstreamErrorMessage 500 body) "500" = true := by
    have h0 := strIncludes_upstream_status 500 body
    rwa [show toString (500 : Nat) = "500" from rfl] at h0
  unfold Mutation.chat
  rw [chatTry_valid input env transport now m hkey hm hv, htr]
  simp only [translateErrorMessage, h401, h429, h500, if_true,
    Bool.false_eq_true, if_false]

/-- Witness for the amended C5: a 500 with empty body yields the
unavailable-class message. -/
theorem chat_status500_unavailable_witness :
    apiKeyFalsy ⟨some "sk-test", none⟩ = false
    ∧ ¬(("hi" : String) = "" ∨ jsTrim "hi" = "")
    ∧ strIncludes (upstreamErrorMessage 500 "") "401" = false
    ∧ strIncludes (upstreamErrorMessage 500 "") "429" = false
    ∧ (Mutation.chat ⟨some "hi", none, none, none, none, none⟩
        ⟨some "sk-test", none⟩ (fun _ => .httpError 500 "") "t").1
        = .error unavailableMessage :=
  ⟨by decide, by decide, by decide, by decide,
   chat_status500_unavailable _ _ _ _ "hi" "" (by decide) rfl (by decide)
     rfl (by decide) (by decide)⟩

/-- Counterexample to C5 as stated: an upstream 502 (empty body) is not
translated to the unavailable class; it gets the generic wrapped error,
because the translator substring-matches `'500'` rather than comparing
the numeric status. -/
theorem chat_status502_generic_wrap_counterexample :
    (Mutation.chat ⟨some "hi", none, none, none, none, none⟩
        ⟨some "sk-test", none⟩ (fun _ => .httpError 502 "") "t").1
      = .error (genericFailurePrefix ++ upstreamErrorMessage 502 "")
    ∧ genericFailurePrefix ++ upstreamErrorMessage 502 ""
        ≠ unavailableMessage := by
  decide

/-- C7: on a successful upstream response whose first choice carries a
message, an absent `usage` becomes the all-zero triple and a present
`usage` is copied field-by-field with no conversion. -/
theorem chat_usage_mapping
    (input : ChatInput) (env : Env)
    (transport : DeepSeekRequest → UpstreamResult) (now m : String)
    (resp : DeepSeekResponseData) (choice : DeepSeekChoice)
    (cm : DeepSeekChoiceMessage)
    (hkey : apiKeyFalsy env = false) (hm : input.message = some m)
    (hv : ¬(m = "" ∨ jsTrim m = ""))
    (htr : transport (buildRequest input) = .success resp)
    (hc : resp.choices.head? = some choice)
    (hcm : choice.message = some cm) :
    (resp.usage = none →
      ∃ r, (Mutation.chat input env transport now).1 = .ok r
        ∧ r.usage = ⟨0, 0, 0⟩)
    ∧ (∀ u, resp.usage = some u →
      ∃ r, (Mutation.chat input env transport now).1 = .ok r
        ∧ r.usage = ⟨u.prompt_tokens, u.completion_tokens,
            u.total_tokens⟩) := by
  unfold Mutation.chat
  rw [chatTry_valid input env transport now m hkey hm hv, htr]
  simp only [mapResponse, hc, hcm]
  constructor
  · intro hu
    rw [hu]
    exact ⟨_, rfl, rfl⟩
  · intro u hu
    rw [hu]
    exact ⟨_, rfl, rfl⟩

/-- Witness for C7: a successful response with `usage` absent returns the
all-zero usage triple. -/
theorem chat_usage_mapping_witness :
    apiKeyFalsy ⟨some "sk-test", none⟩ = false
    ∧ ¬(("hi" : String) = "" ∨ jsTrim "hi" = "")
    ∧ ∃ r, (Mutation.chat ⟨some "hi", none, none, none, none, none⟩
        ⟨some "sk-test", none⟩
        (fun _ => .success ⟨"abc123", "chat.completion", 0, "deepseek-chat",
          [⟨0, some ⟨"assistant", some "hello"⟩, "stop"⟩], none⟩) "t").1
        = .ok r ∧ r.usage = ⟨0, 0, 0⟩ :=
  ⟨by decide, by decide,
   (chat_usage_mapping ⟨some "hi", none, none, none, none, none⟩
      ⟨some "sk-test", none⟩
      (fun _ => .success ⟨"abc123", "chat.completion", 0, "deepseek-chat",
        [⟨0, some ⟨"assistant", some "hello"⟩, "stop"⟩], none⟩) "t" "hi"
      ⟨"abc123", "chat.completion", 0, "deepseek-chat",
        [⟨0, some ⟨"assistant", some "hello"⟩, "stop"⟩], none⟩
      ⟨0, some ⟨"assistant", some "hello"⟩, "stop"⟩
      ⟨"assistant", some "hello"⟩
      (by decide) rfl (by decide) rfl rfl rfl).1 rfl⟩

/-- C8: whenever the model-listing step fails — the key is missing, or the
awaited listing step itself fails — `Query.models` returns the static
default list instead of failing; and the chat mutation never degrades this
way: an always-failing transport always makes `Mutation.chat` fail. -/
theorem models_degrade_to_default_on_failure
    (env : Env) (listingStep : Except String (List String))
    (hfail : apiKeyFalsy env = true ∨ ∃ e, listingStep = .error e) :
    Query.models env listingStep = defaultModels
    ∧ ∀ (input : ChatInput) (env2 : Env)
        (transport : DeepSeekRequest → UpstreamResult) (now : String),
        (∀ req, ∃ s b, transport req = .httpError s b) →
        ∃ msg, (Mutation.chat input env2 transport now).1 = .error msg := by
  constructor
  · unfold Query.models
    rcases hfail with hkey | ⟨e, he⟩
    · simp [hkey]
    · rw [he]
      cases apiKeyFalsy env <;> simp
  · intro input env2 transport now hfail2
    unfold Mutation.chat chatTry
    cases hkey : apiKeyFalsy env2 with
    | true => exact ⟨_, rfl⟩
    | false =>
      cases hm2 : input.message with
      | none => exact ⟨_, rfl⟩
      | some m =>
        by_cases hv2 : m = "" ∨ jsTrim m = ""
        · simp only [if_pos hv2]
          exact ⟨_, rfl⟩
        · simp only [if_neg hv2]
          obtain ⟨s, b, htr⟩ := hfail2 (buildRequest input)
          unfold DeepSeekAPI.chat
          rw [htr]
          exact ⟨_, rfl⟩

/-- Witness for C8: with the key absent, `Query.models` returns the static
default list, and a transport failing with 500 makes chat fail. -/
theorem models_degrade_to_default_on_failure_witness :
    (apiKeyFalsy ⟨none, none⟩ = true
      ∨ ∃ e, (Except.ok ["x"] : Except String (List String)) = .error e)
    ∧ Query.models ⟨none, none⟩ (Except.ok ["x"]) = defaultModels
    ∧ ∃ msg, (Mutation.chat ⟨some "hi", none, none, none, none, none⟩
        ⟨some "sk-test", none⟩ (fun _ => .httpError 500 "down") "t").1
        = .error msg :=
  ⟨Or.inl (by decide),
   (models_degrade_to_default_on_failure ⟨none, none⟩ (Except.ok ["x"])
      (Or.inl (by decide))).1,
   (models_degrade_to_default_on_failure ⟨none, none⟩ (Except.ok ["x"])
      (Or.inl (by decide))).2
     ⟨some "hi", none, none, none, none, none⟩ ⟨some "sk-test", none⟩
     (fun _ => .httpError 500 "down") "t" (fun _ => ⟨500, "down", rfl⟩)⟩

/-- C9: `streamChat` always sends the request with `stream = true`,
overriding whatever the caller supplied, and on success returns the raw
body unchanged, with no parsing or normalization. -/
theorem streamChat_forces_stream_and_returns_raw_body
    {β : Type} (transport : DeepSeekRequest → StreamResult β)
    (request : DeepSeekRequest) :
    (DeepSeekAPI.streamChat transport request).2.stream = some true
    ∧ (DeepSeekAPI.streamChat transport request).2
        = { request with stream := some true }
    ∧ ∀ b, transport { request with stream := some true } = .success b →
        (DeepSeekAPI.streamChat transport request).1 = .ok b := by
  refine ⟨rfl, rfl, ?_⟩
  intro b hb
  unfold DeepSeekAPI.streamChat
  simp only [hb]

/-- Witness for C9: a caller-supplied `stream = false` is overridden to
`true` and the raw body `"rawbytes"` is returned as-is. -/
theorem streamChat_forces_stream_and_returns_raw_body_witness :
    (DeepSeekAPI.streamChat
        (fun _ => StreamResult.success "rawbytes")
        ⟨"deepseek-chat", [⟨Role.user, "hi"⟩], none, none, some false⟩).2.stream
      = some true
    ∧ (DeepSeekAPI.streamChat
        (fun _ => StreamResult.success "rawbytes")
        ⟨"deepseek-chat", [⟨Role.user, "hi"⟩], none, none, some false⟩).1
      = .ok "rawbytes" :=
  ⟨(streamChat_forces_stream_and_returns_raw_body
      (fun _ => StreamResult.success "rawbytes")
      ⟨"deepseek-chat", [⟨Role.user, "hi"⟩], none, none, some false⟩).1,
   (streamChat_forces_stream_and_returns_raw_body
      (fun _ => StreamResult.success "rawbytes")
      ⟨"deepseek-chat", [⟨Role.user, "hi"⟩], none, none, some false⟩).2.2
     "rawbytes" rfl⟩
